import Mathlib

/-!
Verification of the call-signaling core of the mimi-insta repository.

The development shallowly embeds the call lifecycle operations
(`src/lib/calls`: `answerCall`, `rejectCall`, `cancelCall`, `endCall`),
the WebRTC engine (`src/lib/webrtc`: `WebRTCService`), and the call
overlay controller (`CallOverlay`).  Database updates are modelled as
pure transformations of a `CallRecord`; timestamps are integers in
milliseconds; clock reads (`Date.now()` / `new Date()`) inside one
operation are modelled by a single `now` parameter.  Database reads and
writes are assumed to succeed unless a claim is about the failure path,
in which case the outcome is an explicit parameter.
-/

namespace MimiInsta

/-- The call status enum, as constrained by
`complete-database-setup.sql` (`status IN ('calling','ringing','accepted',
'rejected','missed','ended','failed','cancelled','busy')`). -/
inductive CallStatus
  | calling
  | ringing
  | accepted
  | rejected
  | missed
  | ended
  | failed
  | cancelled
  | busy
  deriving DecidableEq, Repr

/-- A session description payload `{type, sdp}` as stored in the
`offer` / `answer` columns. -/
structure SessionDesc where
  type : String
  sdp : String
  deriving DecidableEq, Repr

/-- The two origin roles tagged onto published ICE candidates
(`from: this.isAnswerer ? 'answerer' : 'caller'`). -/
inductive Role
  | caller
  | answerer
  deriving DecidableEq, Repr

/-- One entry of the `ice_candidates` column:
`{candidate, sdpMid, sdpMLineIndex, from}`.  The source field `from` is
a Lean keyword and is embedded as `fromRole`. -/
structure IceCandidateEntry where
  candidate : String
  sdpMid : String
  sdpMLineIndex : Nat
  fromRole : Role
  deriving DecidableEq, Repr

/-- The candidate payload handed to `addIceCandidate` / pushed on the
queue: `{candidate, sdpMid, sdpMLineIndex}` (origin tag stripped). -/
structure RTCIceCandidateInit where
  candidate : String
  sdpMid : String
  sdpMLineIndex : Nat
  deriving DecidableEq, Repr

/-- Strip the origin tag, as done when the engine applies or queues a
polled candidate. -/
def IceCandidateEntry.toInit (c : IceCandidateEntry) : RTCIceCandidateInit :=
  { candidate := c.candidate, sdpMid := c.sdpMid, sdpMLineIndex := c.sdpMLineIndex }

/-- The columns of a `call_logs` row that the call lifecycle and the
signaling layer read and write. -/
structure CallRecord where
  status : CallStatus
  answered_at : Option Int := none
  ended_at : Option Int := none
  duration_seconds : Int := 0
  offer : Option SessionDesc := none
  answer : Option SessionDesc := none
  ice_candidates : List IceCandidateEntry := []
  deriving DecidableEq, Repr

/-- Terminal statuses named by the specification: every status other
than `calling`, `ringing`, `accepted`. -/
def isTerminalStatus (s : CallStatus) : Bool :=
  s ∈ [CallStatus.rejected, .missed, .ended, .failed, .cancelled, .busy]

/-- The status list `['ended', 'rejected', 'missed', 'cancelled']`
hard-coded both in `endCall`'s already-ended guard and in the signaling
poll's cleanup check. -/
def alreadyEndedStatuses : List CallStatus :=
  [CallStatus.ended, .rejected, .missed, .cancelled]

/-- Embeds `answerCall` (src/lib/calls): updates the row to
`{status: 'accepted', answered_at: now}`, with no guard on the current
status. -/
def answerCall (now : Int) (r : CallRecord) : CallRecord :=
  { r with status := .accepted, answered_at := some now }

/-- Embeds `rejectCall` (src/lib/calls): updates the row to
`{status: 'rejected', ended_at: now}`, with no guard on the current
status. -/
def rejectCall (now : Int) (r : CallRecord) : CallRecord :=
  { r with status := .rejected, ended_at := some now }

/-- Embeds `cancelCall` (src/lib/calls): updates the row to
`{status: 'cancelled', ended_at: now}` and clears `offer`, `answer` and
`ice_candidates`, with no guard on the current status. -/
def cancelCall (now : Int) (r : CallRecord) : CallRecord :=
  { r with status := .cancelled, ended_at := some now,
           offer := none, answer := none, ice_candidates := [] }

/-- Embeds `endCall` (src/lib/calls): fetches `answered_at, status`; returns
the row unchanged when the status is already in
`['ended','rejected','missed','cancelled']`; otherwise computes
`duration = Math.floor((Date.now() - answered_at) / 1000)` (`0` when
never answered) and updates the row to `{status: 'ended',
ended_at: now, duration_seconds: duration}`, clearing `offer`, `answer`
and `ice_candidates`.  `Math.floor` of the millisecond difference over
1000 is floor division `Int.fdiv`. -/
def endCall (now : Int) (r : CallRecord) : CallRecord :=
  if r.status ∈ alreadyEndedStatuses then r
  else
    let duration : Int :=
      match r.answered_at with
      | some a => (now - a).fdiv 1000
      | none => 0
    { r with status := .ended, ended_at := some now, duration_seconds := duration,
             offer := none, answer := none, ice_candidates := [] }

/-- In-memory model of the native peer connection: the remote session
description, and the candidates applied to the connection so far in
application order. -/
structure PeerConnectionModel where
  remoteDescription : Option SessionDesc := none
  appliedCandidates : List RTCIceCandidateInit := []
  deriving DecidableEq, Repr

/-- The ephemeral per-tab state of `WebRTCService`.  `pollingActive`
models whether `pollingInterval` holds a live timer handle; the streams
are modelled by their lists of track kinds; `processedCandidates` is
the dedup set of raw candidate strings. -/
structure EngineState where
  peerConnection : Option PeerConnectionModel := none
  localStream : Option (List String) := none
  remoteStream : Option (List String) := none
  callId : Option String := none
  pollingActive : Bool := false
  iceCandidatesQueue : List RTCIceCandidateInit := []
  isAnswerer : Bool := false
  processedCandidates : List String := []
  hasProcessedOffer : Bool := false
  hasProcessedAnswer : Bool := false
  deriving DecidableEq, Repr

/-- The role string the engine writes and compares:
`this.isAnswerer ? 'answerer' : 'caller'`. -/
def EngineState.myRole (s : EngineState) : Role :=
  if s.isAnswerer then .answerer else .caller

/-- Embeds `WebRTCService.cleanup`: clears the poll timer, stops and releases
the local tracks, closes and drops the peer connection, drops the
remote stream and the call id, and resets the candidate queue, the
dedup set and both consumed flags.  `isAnswerer` is not reset by the
source.  The source body is a straight-line sequence of guarded field
resets, so the function is total from any state. -/
def cleanup (s : EngineState) : EngineState :=
  { peerConnection := none, localStream := none, remoteStream := none,
    callId := none, pollingActive := false, iceCandidatesQueue := [],
    isAnswerer := s.isAnswerer, processedCandidates := [],
    hasProcessedOffer := false, hasProcessedAnswer := false }

/-- One iteration of the `for` loop in
`WebRTCService.processIceCandidates`: skip candidates from the own
role and candidates whose raw string is already in the dedup set; add
the string to the dedup set before attempting anything; then apply the
candidate when a remote description is present (a rejection from
`addIceCandidate`, modelled by the parameter `fails`, is caught and
only logged) or push it on the queue otherwise. -/
def processOneCandidate (fails : RTCIceCandidateInit → Bool)
    (s : EngineState) (c : IceCandidateEntry) : EngineState :=
  if c.fromRole = s.myRole then s
  else if s.processedCandidates.contains c.candidate then s
  else
    let s1 := { s with processedCandidates := c.candidate :: s.processedCandidates }
    match s1.peerConnection with
    | none => s1
    | some pc =>
      if pc.remoteDescription.isSome then
        if fails c.toInit then s1
        else
          let pc2 := { pc with appliedCandidates := pc.appliedCandidates ++ [c.toInit] }
          { s1 with peerConnection := some pc2 }
      else { s1 with iceCandidatesQueue := s1.iceCandidatesQueue ++ [c.toInit] }

/-- Embeds `WebRTCService.processIceCandidates`: early return when no peer
connection exists, otherwise the dedup/apply/queue loop over the
fetched candidate list. -/
def processIceCandidates (fails : RTCIceCandidateInit → Bool)
    (s : EngineState) (cands : List IceCandidateEntry) : EngineState :=
  match s.peerConnection with
  | none => s
  | some _ => cands.foldl (processOneCandidate fails) s

/-- The `for (const candidate of this.iceCandidatesQueue)` replay loop
inside `handleIncomingOffer` / `handleIncomingAnswer`: applies the
queued candidates in queue order.  The loop body has no per-candidate
handler, so the first rejection (parameter `fails`) aborts the
remainder and the surrounding `catch` takes over.  Returns the
connection after the loop and whether the loop ran to completion. -/
def applyQueuedCandidates (fails : RTCIceCandidateInit → Bool) :
    PeerConnectionModel → List RTCIceCandidateInit → PeerConnectionModel × Bool
  | pc, [] => (pc, true)
  | pc, c :: rest =>
    if fails c then (pc, false)
    else applyQueuedCandidates fails
      { pc with appliedCandidates := pc.appliedCandidates ++ [c] } rest

/-- Embeds `WebRTCService.handleIncomingOffer`: no-op without a peer
connection; otherwise sets the remote description to the offer,
replays the queued candidates in order, clears the queue, then creates
and publishes an answer.  `answerSdp` is the description produced by
`createAnswer`; the published answer is the second component (`none`
when the replay aborted, in which case the `catch` skips the rest of
the body and the queue is left in place). -/
def handleIncomingOffer (fails : RTCIceCandidateInit → Bool)
    (offer answerSdp : SessionDesc) (s : EngineState) :
    EngineState × Option SessionDesc :=
  match s.peerConnection with
  | none => (s, none)
  | some pc =>
    let pc1 := { pc with remoteDescription := some offer }
    let res := applyQueuedCandidates fails pc1 s.iceCandidatesQueue
    if res.2 then
      ({ s with peerConnection := some res.1, iceCandidatesQueue := [] }, some answerSdp)
    else
      ({ s with peerConnection := some res.1 }, none)

/-- Embeds `WebRTCService.handleIncomingAnswer`: same as the offer handler
but without producing an answer. -/
def handleIncomingAnswer (fails : RTCIceCandidateInit → Bool)
    (answer : SessionDesc) (s : EngineState) : EngineState :=
  match s.peerConnection with
  | none => s
  | some pc =>
    let pc1 := { pc with remoteDescription := some answer }
    let res := applyQueuedCandidates fails pc1 s.iceCandidatesQueue
    if res.2 then { s with peerConnection := some res.1, iceCandidatesQueue := [] }
    else { s with peerConnection := some res.1 }

/-- The columns fetched by each signaling poll tick:
`select('offer, answer, ice_candidates, status')`. -/
structure RecordView where
  offer : Option SessionDesc := none
  answer : Option SessionDesc := none
  ice_candidates : List IceCandidateEntry := []
  status : CallStatus
  deriving DecidableEq, Repr

/-- One tick of the interval installed by
`WebRTCService.startSignalingPolling`: skip when the call id is gone or
the fetch errored (`fetch = none`); clean up and stop on a status in
`['ended','rejected','missed','cancelled']`; hand a not-yet-consumed
offer (answerer side) or answer (caller side) to the engine, setting
the consumed flag first; finally process the fetched candidate list.
Returns the new engine state and the answer published by the offer
handler, if any. -/
def signalingPollTick (fails : RTCIceCandidateInit → Bool)
    (answerSdp : SessionDesc) (fetch : Option RecordView) (s : EngineState) :
    EngineState × Option SessionDesc :=
  match s.callId with
  | none => (s, none)
  | some _ =>
    match fetch with
    | none => (s, none)
    | some data =>
      if data.status ∈ alreadyEndedStatuses then (cleanup s, none)
      else
        let step1 : EngineState × Option SessionDesc :=
          match data.offer with
          | some o =>
            if s.isAnswerer && !s.hasProcessedOffer then
              handleIncomingOffer fails o answerSdp { s with hasProcessedOffer := true }
            else (s, none)
          | none => (s, none)
        let s2 : EngineState :=
          match data.answer with
          | some a =>
            if !step1.1.isAnswerer && !step1.1.hasProcessedAnswer then
              handleIncomingAnswer fails a { step1.1 with hasProcessedAnswer := true }
            else step1.1
          | none => step1.1
        (processIceCandidates fails s2 data.ice_candidates, step1.2)

/-- A candidate-application environment in which `addIceCandidate`
never rejects. -/
def neverFails : RTCIceCandidateInit → Bool := fun _ => false

/-- The raw candidate strings applied to the peer connection. -/
def appliedKeys (s : EngineState) : List String :=
  match s.peerConnection with
  | some pc => pc.appliedCandidates.map (fun c => c.candidate)
  | none => []

/-- The raw candidate strings waiting in the queue. -/
def queueKeys (s : EngineState) : List String :=
  s.iceCandidatesQueue.map (fun c => c.candidate)

/-- At-most-once bookkeeping over a list `A` of applied strings, a list
`B` of queued strings and a dedup set `P`: no string occurs twice among
`A ++ B`, and every one of them is recorded in `P`. -/
def KeysInv (A B P : List String) : Prop :=
  (A ++ B).Nodup ∧ ∀ k ∈ A ++ B, k ∈ P

/-- At-most-once bookkeeping invariant of an engine state: every
candidate string that has been applied or queued is recorded in the
dedup set, and no string occurs twice among the applied and queued
candidates. -/
def CandidateInv (s : EngineState) : Prop :=
  KeysInv (appliedKeys s) (queueKeys s) s.processedCandidates

/-- The first offer consumed by the answerer in a negotiation. -/
def offerV1 : SessionDesc := { type := "offer", sdp := "sdp-v1" }

/-- The replacement offer published by the caller for an ICE
restart. -/
def offerV2 : SessionDesc := { type := "offer", sdp := "sdp-v2-ice-restart" }

/-- A concrete answer description. -/
def answerV1 : SessionDesc := { type := "answer", sdp := "sdp-ans" }

/-- The answerer engine after it consumed the initial offer: the
consumed-offer flag is set and the remote description holds the first
offer. -/
def answererAfterFirstOffer : EngineState :=
  { peerConnection := some { remoteDescription := some offerV1 },
    callId := some ("call-1"), pollingActive := true,
    isAnswerer := true, hasProcessedOffer := true }

/-- The record view the answerer fetches after the caller published a
restart offer on the accepted call. -/
def restartOfferView : RecordView :=
  { offer := some offerV2, status := .accepted }

/-- A caller-side engine with live polling, used as the concrete input
refuting claim C2. -/
def callerPollingState : EngineState :=
  { callId := some ("call-1"), pollingActive := true }

/-- A fetched row whose status is the terminal value `failed`. -/
def failedStatusView : RecordView := { status := .failed }

/-- A freshly created peer connection (no remote description, nothing
applied yet). -/
def freshPeerConnection : PeerConnectionModel := {}

/-- A caller-originated candidate entry used to exercise the queue. -/
def candFromCaller : IceCandidateEntry :=
  { candidate := "cand-a", sdpMid := "0", sdpMLineIndex := 0, fromRole := .caller }

/-- An answerer engine that holds a fresh connection with one candidate
already queued, before any remote description is set. -/
def answererBeforeRemoteDesc : EngineState :=
  { peerConnection := some freshPeerConnection, callId := some ("call-1"),
    pollingActive := true, isAnswerer := true,
    iceCandidatesQueue := [{ candidate := "cand-q", sdpMid := "0", sdpMLineIndex := 0 }] }

/-- An answerer engine holding a connection with a remote description
set, used to exercise the failing-application path of the candidate
loop. -/
def answererWithRemoteDesc : EngineState :=
  { peerConnection := some { remoteDescription := some offerV1 },
    callId := some ("call-1"), pollingActive := true, isAnswerer := true }

/-- An application environment in which `addIceCandidate` rejects
exactly the candidate string of `candFromCaller`. -/
def failsCandA : RTCIceCandidateInit → Bool := fun d => d.candidate == "cand-a"

/-- The statuses the overlay's `checkActiveCall` query selects:
`.in('status', ['calling', 'ringing', 'accepted'])`. -/
def overlayVisibleStatuses : List CallStatus :=
  [CallStatus.calling, .ringing, .accepted]

/-- The overlay state relevant to call detection and cleanup: the
active call id, the `isEnding` flag, the `endingCallId` ref, the
initialization flag, the sound and ring-timer refs and the duration
counters.  `reloaded` records that `window.location.reload()` was
invoked, which tears down every timer of the page. -/
structure OverlayState where
  activeCall : Option String := none
  isEnding : Bool := false
  endingCallId : Option String := none
  webrtcInitialized : Bool := false
  soundStarted : Bool := false
  ringTimerActive : Bool := false
  ringDuration : Nat := 0
  callDuration : Nat := 0
  reloaded : Bool := false
  deriving DecidableEq, Repr

/-- The overlay state after the local-teardown branch of
`checkActiveCall`: ring sound and timer stopped, durations reset,
active call and ending ref dropped, page reloaded. -/
def overlayAfterTeardown (ov : OverlayState) : OverlayState :=
  { ov with activeCall := none, webrtcInitialized := false,
            callDuration := 0, soundStarted := false,
            ringTimerActive := false, ringDuration := 0,
            endingCallId := none, reloaded := true }

/-- Embeds one tick of `CallOverlay.checkActiveCall`.  `latest` is the
newest call row of this user (id and status); the query keeps it only
when its status is in `overlayVisibleStatuses`, so a terminal row comes
back as no row.  A visible row updates `activeCall` (unless it is the
call currently being ended); no row while a call is active triggers the
local teardown: stop the ring sound and timer, clean up the engine,
reset the overlay and reload.  The returned Bool reports whether the
tick wrote a status to the record: no branch ever does. -/
def checkActiveCall (latest : Option (String × CallStatus))
    (ov : OverlayState) (eng : EngineState) :
    OverlayState × EngineState × Bool :=
  if ov.isEnding then (ov, eng, false)
  else
    let visible : Option (String × CallStatus) :=
      match latest with
      | some (i, st) => if st ∈ overlayVisibleStatuses then some (i, st) else none
      | none => none
    match visible with
    | some (i, _) =>
      if ov.endingCallId = some i then (ov, eng, false)
      else ({ ov with activeCall := some i }, eng, false)
    | none =>
      if ov.activeCall.isSome then
        (overlayAfterTeardown ov, cleanup eng, false)
      else (ov, eng, false)

/-- The constant `CALL_TIMEOUT_SECONDS = 60` from `CallOverlay`. -/
def CALL_TIMEOUT_SECONDS : Nat := 60

/-- One tick of the 1-second ring-duration interval: increments the
duration and fires `autoCancelCall` exactly when this side is the
caller and the new duration has reached the timeout. -/
def ringTick (is_caller : Bool) (d : Nat) : Nat × Bool :=
  (d + 1, is_caller && decide (CALL_TIMEOUT_SECONDS ≤ d + 1))

/-- Runs `n` ticks of the ring timer from a fresh start, returning the
final duration and whether `autoCancelCall` has fired at any tick so
far. -/
def ringRun (is_caller : Bool) : Nat → Nat × Bool
  | 0 => (0, false)
  | n + 1 =>
    let prev := ringRun is_caller n
    let t := ringTick is_caller prev.1
    (t.1, prev.2 || t.2)

/-- The effects of `CallOverlay.autoCancelCall`. -/
structure AutoCancelResult where
  record : CallRecord
  soundStopped : Bool
  ringTimerCleared : Bool
  activeCallCleared : Bool
  reloaded : Bool
  deriving DecidableEq, Repr

/-- Embeds `CallOverlay.autoCancelCall`: stops the ring sound and the
ring timer (`stopRingSound`), cancels the record through `cancelCall`,
clears the active call and reloads the page — the reload also stops the
overlay poll and the signaling poll. -/
def autoCancelCall (now : Int) (r : CallRecord) : AutoCancelResult :=
  { record := cancelCall now r, soundStopped := true,
    ringTimerCleared := true, activeCallCleared := true, reloaded := true }

/-- Environment of one `attemptReconnect` run: whether
`createOffer`/`setLocalDescription` throws, and whether the database
update of the restart offer returns an error. -/
structure ReconnectEnv where
  createOfferThrows : Bool
  publishErrors : Bool
  deriving DecidableEq, Repr

/-- Outcome of `attemptReconnect`: the resulting engine state and
record, whether the created offer carried the ICE-restart flag, how
many publish attempts were made, and the messages surfaced through the
error callback. -/
structure ReconnectResult where
  engine : EngineState
  record : CallRecord
  offerCreatedWithIceRestart : Bool
  publishAttempts : Nat
  errorsEmitted : List String
  deriving DecidableEq, Repr

/-- Embeds `WebRTCService.attemptReconnect`: no-op without a
connection or call id; creates one offer with `iceRestart: true` — if
`createOffer`/`setLocalDescription` throws, the `catch` surfaces the
terminal connection-lost message through the error callback and nothing
is published; otherwise the offer is published once together with
`ice_candidates: []`.  A database error returned by the publish is only
logged (`console.error`): the consumed flags stay set, the record is
unchanged and nothing reaches the error callback.  On success
`hasProcessedAnswer` and the dedup set are reset so the new round is
processed fresh.  The function performs at most one publish and never
retries. -/
def attemptReconnect (env : ReconnectEnv) (restartOffer : SessionDesc)
    (s : EngineState) (r : CallRecord) : ReconnectResult :=
  if s.peerConnection.isNone || s.callId.isNone then
    { engine := s, record := r, offerCreatedWithIceRestart := false,
      publishAttempts := 0, errorsEmitted := [] }
  else if env.createOfferThrows then
    { engine := s, record := r, offerCreatedWithIceRestart := false,
      publishAttempts := 0,
      errorsEmitted := ["Connection lost. Please try again."] }
  else if env.publishErrors then
    { engine := s, record := r, offerCreatedWithIceRestart := true,
      publishAttempts := 1, errorsEmitted := [] }
  else
    { engine := { s with hasProcessedAnswer := false, processedCandidates := [] },
      record := { r with offer := some restartOffer, ice_candidates := [] },
      offerCreatedWithIceRestart := true,
      publishAttempts := 1, errorsEmitted := [] }

/-- The call type enum `{voice, video}`. -/
inductive CallType
  | voice
  | video
  deriving DecidableEq, Repr

/-- Error names raised by `getUserMedia`, as distinguished by
`initializeCall`. -/
inductive MediaErrorName
  | NotAllowedError
  | PermissionDeniedError
  | NotFoundError
  | DevicesNotFoundError
  | NotReadableError
  | TrackStartError
  | other (message : String)
  deriving DecidableEq, Repr

/-- Environment of one `initializeCall` run: availability of
`navigator.mediaDevices.getUserMedia`, protocol and hostname of the
page (for the secure-context check), device and browser flags, and the
outcomes of the two possible `getUserMedia` attempts (a success lists
the acquired track kinds). -/
structure InitEnv where
  mediaDevicesAvailable : Bool
  protocolHttps : Bool
  hostnameLoopback : Bool
  protocolString : String
  hostString : String
  iosDevice : Bool
  safariBrowser : Bool
  firstAttempt : Except MediaErrorName (List String)
  iosAudioOnlyAttempt : Except MediaErrorName (List String)
  deriving Repr

/-- Embeds `requestMediaWithIOSSupport`: on iOS, a `NotAllowedError`
on a request that included video falls back to an audio-only request;
otherwise the first attempt's outcome propagates unchanged. -/
def requestMediaWithIOSSupport (env : InitEnv) (wantVideo : Bool) :
    Except MediaErrorName (List String) :=
  if env.iosDevice then
    match env.firstAttempt with
    | .ok stream => .ok stream
    | .error e =>
      if wantVideo = true ∧ e = MediaErrorName.NotAllowedError then env.iosAudioOnlyAttempt
      else .error e
  else env.firstAttempt

/-- The insecure-context message built by `initializeCall` when
`mediaDevices` is missing and the page is neither HTTPS nor
loopback. -/
def httpsErrorMessage (protocol host : String) : String :=
  "Camera/microphone requires HTTPS.\n\nYou are accessing via: " ++ protocol ++ "//" ++ host
    ++ "\n\nTo fix this:\n1. Use ngrok: npx ngrok http 3000\n2. Then open the https:// URL on your phone"

/-- Message for iOS browsers without `mediaDevices` on a secure
origin. -/
def iosNotAvailableMessage : String :=
  "Camera/microphone not available on this iOS browser. Try using Safari."

/-- Fallback unavailability message. -/
def genericNotAvailableMessage : String := "Camera/microphone not available."

/-- Embeds `showIOSPermissionHelp`, keyed on the browser. -/
def showIOSPermissionHelp (safari : Bool) : String :=
  if safari then
    "To enable camera/microphone on iOS Safari:\n1. Go to Settings > Safari > Camera/Microphone\n2. Allow access for this website\n3. Reload the page and try again"
  else
    "To enable camera/microphone on iOS Chrome:\n1. Go to Settings > Chrome > Camera/Microphone\n2. Allow access\n3. Reload the page and try again"

/-- Permission-denied message on non-iOS platforms. -/
def desktopPermissionMessage : String :=
  "Please allow camera and microphone access in your browser settings, then reload the page."

/-- Message for `NotFoundError` / `DevicesNotFoundError`. -/
def notFoundMessage : String := "No camera or microphone found on this device."

/-- Message for `NotReadableError` / `TrackStartError`. -/
def busyMessage : String :=
  "Camera/microphone is already in use by another app. Please close other apps and try again."

/-- Outcome of `initializeCall`: its boolean return value, the messages
passed to the error callback, the device argument passed to the
permission-denied callback, the engine state, and whether polling
started and an initial offer was produced. -/
structure InitResult where
  success : Bool
  errorsEmitted : List String
  permissionDenied : Option String := none
  engine : EngineState
  pollingStarted : Bool := false
  offerPublished : Bool := false
  deriving DecidableEq, Repr

/-- The permission-denied branch of `initializeCall`: platform-aware
message through the error callback, then the permission-denied callback
with the affected device (`both` for a video call, `microphone`
otherwise), returning `false`. -/
def permissionDeniedResult (env : InitEnv) (callType : CallType)
    (s0 : EngineState) : InitResult :=
  { success := false,
    errorsEmitted :=
      [if env.iosDevice then showIOSPermissionHelp env.safariBrowser
       else desktopPermissionMessage],
    permissionDenied :=
      some (if callType == CallType.video then ("both") else ("microphone")),
    engine := s0 }

/-- Embeds the error-handling skeleton of
`WebRTCService.initializeCall`: records the call id and role; when
`mediaDevices` is unavailable, reports the insecure-context, iOS or
generic unavailability message and returns `false`; otherwise
classifies the `getUserMedia` outcome — permission denied (with the
permission-denied callback), device not found, device already in use,
or a generic media error — each through the error callback with
`false`, never throwing past the callback boundary; on success the
stream, connection and polling are set up and `true` is returned. -/
def initializeCall (env : InitEnv) (callId : String) (callType : CallType)
    (isCaller : Bool) (s : EngineState) : InitResult :=
  let s0 := { s with callId := some callId, isAnswerer := !isCaller }
  if env.mediaDevicesAvailable = false then
    let isSecure := env.protocolHttps || env.hostnameLoopback
    let msg :=
      if isSecure = false then httpsErrorMessage env.protocolString env.hostString
      else if env.iosDevice then iosNotAvailableMessage
      else genericNotAvailableMessage
    { success := false, errorsEmitted := [msg], engine := s0 }
  else
    match requestMediaWithIOSSupport env (callType == CallType.video) with
    | .error MediaErrorName.NotAllowedError => permissionDeniedResult env callType s0
    | .error MediaErrorName.PermissionDeniedError => permissionDeniedResult env callType s0
    | .error MediaErrorName.NotFoundError =>
      { success := false, errorsEmitted := [notFoundMessage], engine := s0 }
    | .error MediaErrorName.DevicesNotFoundError =>
      { success := false, errorsEmitted := [notFoundMessage], engine := s0 }
    | .error MediaErrorName.NotReadableError =>
      { success := false, errorsEmitted := [busyMessage], engine := s0 }
    | .error MediaErrorName.TrackStartError =>
      { success := false, errorsEmitted := [busyMessage], engine := s0 }
    | .error (MediaErrorName.other m) =>
      { success := false, errorsEmitted := ["Media error: " ++ m], engine := s0 }
    | .ok tracks =>
      let s1 := { s0 with localStream := some tracks, peerConnection := some {},
                          remoteStream := some [], pollingActive := true }
      { success := true, errorsEmitted := [], engine := s1,
        pollingStarted := true, offerPublished := isCaller }

/-- A fetched row whose status is the terminal value `ended`. -/
def endedStatusView : RecordView := { status := .ended }

/-- An overlay currently showing an active call, not in the middle of
ending it. -/
def overlayWithActive : OverlayState := { activeCall := some ("call-1") }

/-- A caller engine mid-call (answer consumed, one candidate seen),
used to exercise `attemptReconnect`. -/
def midCallCallerEngine : EngineState :=
  { peerConnection := some { remoteDescription := some answerV1 },
    callId := some ("call-1"), pollingActive := true,
    hasProcessedAnswer := true, processedCandidates := ["cand-x"] }

/-- An accepted record carrying one published candidate. -/
def midCallRecord : CallRecord :=
  { status := .accepted, answered_at := some 1000,
    ice_candidates :=
      [{ candidate := "cand-x", sdpMid := "0", sdpMLineIndex := 0, fromRole := .answerer }] }

/-- A reconnect environment whose offer creation succeeds but whose
publish returns a database error. -/
def publishFailEnv : ReconnectEnv := { createOfferThrows := false, publishErrors := true }

/-- A reconnect environment in which both steps succeed. -/
def reconnectOkEnv : ReconnectEnv := { createOfferThrows := false, publishErrors := false }

/-- A concrete non-iOS environment whose `getUserMedia` reports a
permission denial. -/
def permDeniedEnv : InitEnv :=
  { mediaDevicesAvailable := true, protocolHttps := true, hostnameLoopback := false,
    protocolString := "https:", hostString := "example.com",
    iosDevice := false, safariBrowser := false,
    firstAttempt := .error MediaErrorName.NotAllowedError,
    iosAudioOnlyAttempt := .error MediaErrorName.NotAllowedError }

/-- A concrete insecure plain-HTTP environment without
`mediaDevices`. -/
def insecureEnv : InitEnv :=
  { mediaDevicesAvailable := false, protocolHttps := false, hostnameLoopback := false,
    protocolString := "http:", hostString := "example.com",
    iosDevice := false, safariBrowser := false,
    firstAttempt := .error MediaErrorName.NotAllowedError,
    iosAudioOnlyAttempt := .error MediaErrorName.NotAllowedError }

/-- A freshly created outgoing call record. -/
def callingRecord : CallRecord := { status := .calling }

/-- A record already in the terminal status `ended`, used as the
concrete input refuting claim C1. -/
def endedRecord : CallRecord :=
  { status := .ended, answered_at := some 1000, ended_at := some 5000,
    duration_seconds := 4 }

/-- A record in `accepted` whose `answered_at` lies in the future of
the local clock performing `endCall` (the two timestamps come from two
different machines), used as the concrete input refuting claim C7. -/
def skewedAcceptedRecord : CallRecord :=
  { status := .accepted, answered_at := some 2000 }

end MimiInsta

namespace MimiInsta

/-- The replay loop applies every queued candidate, in queue order,
when none of them is rejected. -/
theorem applyQueuedCandidates_complete (fails : RTCIceCandidateInit → Bool) :
    ∀ (q : List RTCIceCandidateInit) (pc : PeerConnectionModel),
      (∀ d ∈ q, fails d = false) →
      applyQueuedCandidates fails pc q
        = ({ pc with appliedCandidates := pc.appliedCandidates ++ q }, true) := by
  intro q
  induction q with
  | nil => intro pc _; simp [applyQueuedCandidates]
  | cons c rest ih =>
    intro pc h
    have hc : fails c = false := h c (by simp)
    have ih' := ih { pc with appliedCandidates := pc.appliedCandidates ++ [c] }
      (fun d hd => h d (by simp [hd]))
    simp [applyQueuedCandidates, hc, ih']

/-- C8: calling `cleanup` twice from any engine state produces the same
end state as calling it once, and one call leaves the poll timer
stopped, the local tracks and connection released, and every piece of
ephemeral signaling state cleared.  The embedded function is total,
mirroring that the source body is a sequence of guarded resets that
never raises, even on an already-torn-down instance. -/
theorem c8_cleanup_idempotent (s : EngineState) :
    cleanup (cleanup s) = cleanup s ∧
    (cleanup s).pollingActive = false ∧
    (cleanup s).localStream = none ∧
    (cleanup s).peerConnection = none ∧
    (cleanup s).remoteStream = none ∧
    (cleanup s).callId = none ∧
    (cleanup s).iceCandidatesQueue = [] ∧
    (cleanup s).processedCandidates = [] ∧
    (cleanup s).hasProcessedOffer = false ∧
    (cleanup s).hasProcessedAnswer = false :=
  ⟨rfl, rfl, rfl, rfl, rfl, rfl, rfl, rfl, rfl, rfl⟩

/-- C4: after the caller publishes an ICE-restart offer (a new offer
object), the answerer's poll tick does NOT reprocess it: the answerer's
`hasProcessedOffer` flag, set when the original offer was consumed and
reset by nobody, makes the tick skip the new offer object entirely — the
engine state (remote description included) is unchanged and no fresh
answer is published, contradicting the specified reprocessing. -/
theorem c4_restart_offer_ignored_by_answerer :
    offerV2 ≠ offerV1 ∧
    answererAfterFirstOffer.hasProcessedOffer = true ∧
    restartOfferView.offer = some offerV2 ∧
    signalingPollTick neverFails answerV1 (some restartOfferView) answererAfterFirstOffer
      = (answererAfterFirstOffer, none) := by
  decide

/-- C2 counterexample: the claim that a poll tick fetching any terminal
status performs full cleanup is false for the terminal status `failed`:
the tick leaves the engine untouched and the poll timer running, because
the cleanup check only tests `['ended','rejected','missed','cancelled']`. -/
theorem c2_counterexample_failed_status_keeps_polling :
    isTerminalStatus failedStatusView.status = true ∧
    (signalingPollTick neverFails answerV1 (some failedStatusView) callerPollingState).1.pollingActive
      = true ∧
    (signalingPollTick neverFails answerV1 (some failedStatusView) callerPollingState).1
      ≠ cleanup callerPollingState := by
  decide

/-- C1 counterexample: the claim "once status holds a terminal value,
no lifecycle operation performs a further status transition" is false:
`cancelCall` on a record whose status is the terminal value `ended`
rewrites the status to `cancelled` and overwrites `ended_at`. -/
theorem c1_counterexample_cancel_on_ended :
    isTerminalStatus endedRecord.status = true ∧
    (cancelCall 9000 endedRecord).status ≠ endedRecord.status ∧
    (cancelCall 9000 endedRecord).ended_at ≠ endedRecord.ended_at := by
  decide

/-- C1 (amended): only `endCall` guards against an already-terminal
record, and only against the four statuses `ended`, `rejected`,
`missed`, `cancelled`, for which it performs no transition at all;
`answerCall`, `rejectCall` and `cancelCall` transition the record
unconditionally (so `ended_at` can be written more than once), and
`endCall` does transition records in `failed` or `busy`. -/
theorem c1_amended_only_endCall_guards (now : Int) (r : CallRecord)
    (h : r.status ∈ alreadyEndedStatuses) :
    endCall now r = r ∧
    (answerCall now r).status = .accepted ∧
    (rejectCall now r).status = .rejected ∧
    (cancelCall now r).status = .cancelled ∧
    (endCall now { r with status := .failed }).status = .ended ∧
    (endCall now { r with status := .busy }).status = .ended := by
  refine ⟨?_, rfl, rfl, rfl, ?_, ?_⟩
  · simp [endCall, h]
  · simp [endCall, alreadyEndedStatuses]
  · simp [endCall, alreadyEndedStatuses]

/-- Witness for `c1_amended_only_endCall_guards` at the concrete
already-ended record. -/
theorem c1_amended_witness :
    endCall 9000 endedRecord = endedRecord ∧
    (answerCall 9000 endedRecord).status = .accepted ∧
    (rejectCall 9000 endedRecord).status = .rejected ∧
    (cancelCall 9000 endedRecord).status = .cancelled ∧
    (endCall 9000 { endedRecord with status := .failed }).status = .ended ∧
    (endCall 9000 { endedRecord with status := .busy }).status = .ended :=
  c1_amended_only_endCall_guards 9000 endedRecord (by decide)

/-- C7 counterexample: the claim "duration_seconds is never negative"
is false: `endCall` performed by a machine whose clock reads earlier
than the stored `answered_at` writes `duration_seconds = -2` (there is
no `max(0, _)` clamp in the code). -/
theorem c7_counterexample_negative_duration :
    (endCall 0 skewedAcceptedRecord).status = .ended ∧
    (endCall 0 skewedAcceptedRecord).duration_seconds = -2 := by
  decide

/-- C7 (amended): when the ending clock is not behind `answered_at`,
`duration_seconds` written by `endCall` on an `accepted` record equals
`max(0, floor((ended_at - answered_at) / 1000))` in whole seconds, and
a record ended without ever being answered gets `duration_seconds = 0`;
without that clock assumption the value can be negative. -/
theorem c7_amended_duration (now a : Int) (r r' : CallRecord)
    (hs : r.status = .accepted) (ha : r.answered_at = some a) (hle : a ≤ now)
    (hs' : r'.status = .accepted) (ha' : r'.answered_at = none) :
    (endCall now r).duration_seconds = max 0 ((now - a).fdiv 1000) ∧
    (endCall now r).ended_at = some now ∧
    (endCall now r').duration_seconds = 0 := by
  have hguard : r.status ∉ alreadyEndedStatuses := by
    rw [hs]; decide
  have hguard' : r'.status ∉ alreadyEndedStatuses := by
    rw [hs']; decide
  have hnonneg : 0 ≤ (now - a).fdiv 1000 :=
    Int.fdiv_nonneg (by omega) (by omega)
  refine ⟨?_, ?_, ?_⟩
  · simp [endCall, hguard, ha, max_eq_right hnonneg]
  · simp [endCall, hguard]
  · simp [endCall, hguard', ha']

/-- C3: a candidate from the other party arriving while the remote
description is unset is appended to the queue (arrival order, nothing
else touched), and `handleIncomingOffer` / `handleIncomingAnswer`,
immediately after setting the remote description, apply the whole queue
to the connection in exactly the queued order, drop none of them (no
application is rejected), and clear the queue; the offer handler then
publishes the freshly created answer. -/
theorem c3_candidate_queue_and_replay
    (fails : RTCIceCandidateInit → Bool) (s : EngineState)
    (pc : PeerConnectionModel) (c : IceCandidateEntry)
    (offer answerSdp ans : SessionDesc)
    (hpc : s.peerConnection = some pc)
    (hnoRemote : pc.remoteDescription = none)
    (hrole : ¬ c.fromRole = s.myRole)
    (hfresh : c.candidate ∉ s.processedCandidates)
    (hok : ∀ d ∈ s.iceCandidatesQueue, fails d = false) :
    (processOneCandidate fails s c).iceCandidatesQueue
        = s.iceCandidatesQueue ++ [c.toInit] ∧
    (processOneCandidate fails s c).peerConnection = some pc ∧
    (handleIncomingOffer fails offer answerSdp s).1.peerConnection
        = some { pc with remoteDescription := some offer,
                         appliedCandidates := pc.appliedCandidates ++ s.iceCandidatesQueue } ∧
    (handleIncomingOffer fails offer answerSdp s).1.iceCandidatesQueue = [] ∧
    (handleIncomingOffer fails offer answerSdp s).2 = some answerSdp ∧
    (handleIncomingAnswer fails ans s).peerConnection
        = some { pc with remoteDescription := some ans,
                         appliedCandidates := pc.appliedCandidates ++ s.iceCandidatesQueue } ∧
    (handleIncomingAnswer fails ans s).iceCandidatesQueue = [] := by
  have h1 := applyQueuedCandidates_complete fails s.iceCandidatesQueue
    { pc with remoteDescription := some offer } hok
  have h2 := applyQueuedCandidates_complete fails s.iceCandidatesQueue
    { pc with remoteDescription := some ans } hok
  refine ⟨?_, ?_, ?_, ?_, ?_, ?_, ?_⟩ <;>
    simp [processOneCandidate, handleIncomingOffer, handleIncomingAnswer,
          hpc, hnoRemote, hrole, hfresh, h1, h2]

/-- Witness for `c3_candidate_queue_and_replay` at a concrete answerer
state with one queued candidate. -/
theorem c3_witness :
    (processOneCandidate neverFails answererBeforeRemoteDesc candFromCaller).iceCandidatesQueue
        = answererBeforeRemoteDesc.iceCandidatesQueue ++ [candFromCaller.toInit] ∧
    (processOneCandidate neverFails answererBeforeRemoteDesc candFromCaller).peerConnection
        = some freshPeerConnection ∧
    (handleIncomingOffer neverFails offerV1 answerV1 answererBeforeRemoteDesc).1.peerConnection
        = some { freshPeerConnection with
                   remoteDescription := some offerV1,
                   appliedCandidates := freshPeerConnection.appliedCandidates
                     ++ answererBeforeRemoteDesc.iceCandidatesQueue } ∧
    (handleIncomingOffer neverFails offerV1 answerV1 answererBeforeRemoteDesc).1.iceCandidatesQueue
        = [] ∧
    (handleIncomingOffer neverFails offerV1 answerV1 answererBeforeRemoteDesc).2
        = some answerV1 ∧
    (handleIncomingAnswer neverFails answerV1 answererBeforeRemoteDesc).peerConnection
        = some { freshPeerConnection with
                   remoteDescription := some answerV1,
                   appliedCandidates := freshPeerConnection.appliedCandidates
                     ++ answererBeforeRemoteDesc.iceCandidatesQueue } ∧
    (handleIncomingAnswer neverFails answerV1 answererBeforeRemoteDesc).iceCandidatesQueue = [] :=
  c3_candidate_queue_and_replay neverFails answererBeforeRemoteDesc freshPeerConnection
    candFromCaller offerV1 answerV1 answerV1 rfl rfl (by decide) (by decide) (by decide)

/-- Inserting one new element between the two halves of a nodup
concatenation keeps it nodup. -/
theorem nodup_append_mid {α : Type} {A B : List α} {k : α}
    (h : (A ++ B).Nodup) (hk : k ∉ A ++ B) : ((A ++ [k]) ++ B).Nodup := by
  rw [List.append_assoc, List.singleton_append, List.nodup_middle]
  exact List.nodup_cons.2 ⟨hk, h⟩

/-- Appending one new element at the end of a nodup concatenation keeps
it nodup. -/
theorem nodup_append_last {α : Type} {A B : List α} {k : α}
    (h : (A ++ B).Nodup) (hk : k ∉ A ++ B) : (A ++ (B ++ [k])).Nodup := by
  have e : A ++ (B ++ [k]) = (A ++ B) ++ k :: ([] : List α) := by simp
  rw [e, List.nodup_middle]
  exact List.nodup_cons.2 ⟨by simpa using hk, by simpa using h⟩

/-- Growing only the dedup set preserves the bookkeeping. -/
theorem keysInv_cons {A B P : List String} {k : String} (h : KeysInv A B P) :
    KeysInv A B (k :: P) :=
  ⟨h.1, fun x hx => List.mem_cons_of_mem _ (h.2 x hx)⟩

/-- Applying a candidate not yet recorded, while recording it,
preserves the bookkeeping. -/
theorem keysInv_insert_applied {A B P : List String} {k : String}
    (h : KeysInv A B P) (hk : k ∉ P) : KeysInv (A ++ [k]) B (k :: P) := by
  have hknot : k ∉ A ++ B := fun hx => hk (h.2 k hx)
  refine ⟨nodup_append_mid h.1 hknot, ?_⟩
  intro x hx
  rcases List.mem_append.1 hx with h1 | h2
  · rcases List.mem_append.1 h1 with ha | hb
    · exact List.mem_cons_of_mem _ (h.2 x (List.mem_append.2 (Or.inl ha)))
    · have hxk : x = k := by simpa using hb
      exact hxk ▸ List.mem_cons_self _ _
  · exact List.mem_cons_of_mem _ (h.2 x (List.mem_append.2 (Or.inr h2)))

/-- Queuing a candidate not yet recorded, while recording it, preserves
the bookkeeping. -/
theorem keysInv_insert_queue {A B P : List String} {k : String}
    (h : KeysInv A B P) (hk : k ∉ P) : KeysInv A (B ++ [k]) (k :: P) := by
  have hknot : k ∉ A ++ B := fun hx => hk (h.2 k hx)
  refine ⟨nodup_append_last h.1 hknot, ?_⟩
  intro x hx
  rcases List.mem_append.1 hx with h1 | h2
  · exact List.mem_cons_of_mem _ (h.2 x (List.mem_append.2 (Or.inl h1)))
  · rcases List.mem_append.1 h2 with hb | hc
    · exact List.mem_cons_of_mem _ (h.2 x (List.mem_append.2 (Or.inr hb)))
    · have hxk : x = k := by simpa using hc
      exact hxk ▸ List.mem_cons_self _ _

/-- Each iteration of the candidate loop preserves the at-most-once
bookkeeping invariant. -/
theorem candidateInv_step (fails : RTCIceCandidateInit → Bool)
    (c : IceCandidateEntry) (s : EngineState) (h : CandidateInv s) :
    CandidateInv (processOneCandidate fails s c) := by
  by_cases hrole : c.fromRole = s.myRole
  · simpa [processOneCandidate, hrole] using h
  by_cases hseen : c.candidate ∈ s.processedCandidates
  · simpa [processOneCandidate, hrole, hseen] using h
  have hfresh : c.candidate ∉ s.processedCandidates := hseen
  rcases hpc : s.peerConnection with _ | pc
  · have hres : processOneCandidate fails s c
        = { s with processedCandidates := c.candidate :: s.processedCandidates } := by
      simp [processOneCandidate, hrole, hfresh, hpc]
    rw [hres]
    exact keysInv_cons h
  · by_cases hrd : pc.remoteDescription.isSome = true
    · by_cases hf : fails c.toInit = true
      · have hres : processOneCandidate fails s c
            = { s with processedCandidates := c.candidate :: s.processedCandidates } := by
          simp [processOneCandidate, hrole, hfresh, hpc, hrd, hf]
        rw [hres]
        exact keysInv_cons h
      · have hres : processOneCandidate fails s c
            = { s with processedCandidates := c.candidate :: s.processedCandidates,
                       peerConnection := some { pc with appliedCandidates :=
                         pc.appliedCandidates ++ [c.toInit] } } := by
          simp [processOneCandidate, hrole, hfresh, hpc, hrd, hf]
        rw [hres]
        have eA : appliedKeys { s with
            processedCandidates := c.candidate :: s.processedCandidates,
            peerConnection := some { pc with appliedCandidates :=
              pc.appliedCandidates ++ [c.toInit] } }
            = appliedKeys s ++ [c.candidate] := by
          simp [appliedKeys, hpc, IceCandidateEntry.toInit]
        show KeysInv _ _ _
        rw [eA]
        exact keysInv_insert_applied h hfresh
    · have hres : processOneCandidate fails s c
          = { s with processedCandidates := c.candidate :: s.processedCandidates,
                     iceCandidatesQueue := s.iceCandidatesQueue ++ [c.toInit] } := by
        simp [processOneCandidate, hrole, hfresh, hpc, hrd]
      rw [hres]
      have eQ : queueKeys { s with
          processedCandidates := c.candidate :: s.processedCandidates,
          iceCandidatesQueue := s.iceCandidatesQueue ++ [c.toInit] }
          = queueKeys s ++ [c.candidate] := by
        simp [queueKeys, IceCandidateEntry.toInit]
      show KeysInv _ _ _
      rw [eQ]
      exact keysInv_insert_queue h hfresh

/-- The candidate loop preserves the invariant along the whole fetched
list. -/
theorem candidateInv_foldl (fails : RTCIceCandidateInit → Bool) :
    ∀ (cands : List IceCandidateEntry) (s : EngineState),
      CandidateInv s → CandidateInv (cands.foldl (processOneCandidate fails) s)
  | [], _, h => h
  | c :: rest, s, h =>
    candidateInv_foldl fails rest (processOneCandidate fails s c)
      (candidateInv_step fails c s h)

/-- Lemma: `processIceCandidates` preserves the at-most-once invariant. -/
theorem candidateInv_processIceCandidates (fails : RTCIceCandidateInit → Bool)
    (cands : List IceCandidateEntry) (s : EngineState) (h : CandidateInv s) :
    CandidateInv (processIceCandidates fails s cands) := by
  unfold processIceCandidates
  rcases s.peerConnection with _ | pc
  · exact h
  · exact candidateInv_foldl fails cands s h

/-- C10: the candidate loop records a fresh candidate string in the
dedup set before attempting to apply it, so a candidate whose
application is rejected is skipped silently (connection and queue
untouched), any candidate whose string is already in the dedup set is
never reprocessed on later ticks, and processing preserves the
at-most-once invariant (every string applied or queued is recorded and
appears at most once among the applied and queued candidates). -/
theorem c10_at_most_once_candidate_application
    (fails : RTCIceCandidateInit → Bool) (s : EngineState)
    (pc : PeerConnectionModel) (c : IceCandidateEntry)
    (hpc : s.peerConnection = some pc)
    (hrd : pc.remoteDescription.isSome = true)
    (hrole : ¬ c.fromRole = s.myRole)
    (hfresh : c.candidate ∉ s.processedCandidates)
    (hfail : fails c.toInit = true) :
    (processOneCandidate fails s c).processedCandidates
        = c.candidate :: s.processedCandidates ∧
    (processOneCandidate fails s c).peerConnection = some pc ∧
    (processOneCandidate fails s c).iceCandidatesQueue = s.iceCandidatesQueue ∧
    (∀ s' : EngineState, c.candidate ∈ s'.processedCandidates →
        processOneCandidate fails s' c = s') ∧
    (∀ (cands : List IceCandidateEntry) (t : EngineState),
        CandidateInv t → CandidateInv (processIceCandidates fails t cands)) := by
  refine ⟨?_, ?_, ?_, ?_, ?_⟩
  · simp [processOneCandidate, hrole, hfresh, hpc, hrd, hfail]
  · simp [processOneCandidate, hrole, hfresh, hpc, hrd, hfail]
  · simp [processOneCandidate, hrole, hfresh, hpc, hrd, hfail]
  · intro s' hseen
    by_cases hrole' : c.fromRole = s'.myRole
    · simp [processOneCandidate, hrole']
    · simp [processOneCandidate, hrole', hseen]
  · intro cands t ht
    exact candidateInv_processIceCandidates fails cands t ht

/-- Witness for `c10_at_most_once_candidate_application`: a concrete
answerer whose connection rejects the candidate string of
`candFromCaller`. -/
theorem c10_witness :
    (processOneCandidate failsCandA answererWithRemoteDesc candFromCaller).processedCandidates
        = candFromCaller.candidate :: answererWithRemoteDesc.processedCandidates ∧
    (processOneCandidate failsCandA answererWithRemoteDesc candFromCaller).peerConnection
        = some { remoteDescription := some offerV1 } ∧
    (processOneCandidate failsCandA answererWithRemoteDesc candFromCaller).iceCandidatesQueue
        = answererWithRemoteDesc.iceCandidatesQueue ∧
    (∀ s' : EngineState, candFromCaller.candidate ∈ s'.processedCandidates →
        processOneCandidate failsCandA s' candFromCaller = s') ∧
    (∀ (cands : List IceCandidateEntry) (t : EngineState),
        CandidateInv t → CandidateInv (processIceCandidates failsCandA t cands)) :=
  c10_at_most_once_candidate_application failsCandA answererWithRemoteDesc
    { remoteDescription := some offerV1 } candFromCaller
    rfl (by decide) (by decide) (by decide) (by decide)

/-- Witness for `c7_amended_duration` at concrete records. -/
theorem c7_amended_witness :
    (endCall 5000 { skewedAcceptedRecord with answered_at := some 1000 }).duration_seconds
      = max 0 (((5000 : Int) - 1000).fdiv 1000) ∧
    (endCall 5000 { skewedAcceptedRecord with answered_at := some 1000 }).ended_at = some 5000 ∧
    (endCall 5000 { skewedAcceptedRecord with answered_at := none }).duration_seconds = 0 :=
  c7_amended_duration 5000 1000
    { skewedAcceptedRecord with answered_at := some 1000 }
    { skewedAcceptedRecord with answered_at := none }
    rfl rfl (by decide) rfl rfl

/-- Closed form of the ring timer: after `n` ticks the duration is `n`
and the auto-cancel has fired exactly when this side is the caller and
`n` reached the timeout. -/
theorem ringRun_eq (b : Bool) (n : Nat) :
    ringRun b n = (n, b && decide (CALL_TIMEOUT_SECONDS ≤ n)) := by
  induction n with
  | zero => simp [ringRun, CALL_TIMEOUT_SECONDS]
  | succ n ih =>
    simp only [ringRun, ih, ringTick]
    cases b with
    | false => simp
    | true =>
      by_cases h : CALL_TIMEOUT_SECONDS ≤ n
      · simp [h, Nat.le_succ_of_le h]
      · simp [h]

/-- C6: while a call stays in `calling`/`ringing` (never `accepted`),
the caller side fires the auto-cancel at the first ring tick reaching
60 seconds and never earlier, `autoCancelCall` transitions the record
to `cancelled` (setting `ended_at`), stops the ringback sound and ring
timer and reloads the page (stopping all polling); the receiver side
never fires the auto-cancel, however many ticks elapse. -/
theorem c6_caller_only_ring_timeout (n m : Nat) (now : Int) (r : CallRecord)
    (hn : CALL_TIMEOUT_SECONDS ≤ n) (hm : m < CALL_TIMEOUT_SECONDS)
    (hr : r.status = .calling ∨ r.status = .ringing) :
    (ringRun true n).2 = true ∧
    (ringRun true m).2 = false ∧
    (∀ j : Nat, (ringRun false j).2 = false) ∧
    (autoCancelCall now r).record.status = .cancelled ∧
    (autoCancelCall now r).record.ended_at = some now ∧
    (autoCancelCall now r).soundStopped = true ∧
    (autoCancelCall now r).ringTimerCleared = true ∧
    (autoCancelCall now r).reloaded = true ∧
    isTerminalStatus r.status = false := by
  refine ⟨?_, ?_, ?_, rfl, rfl, rfl, rfl, rfl, ?_⟩
  · rw [ringRun_eq]; simp [hn]
  · rw [ringRun_eq]; simp [Nat.not_le.2 hm]
  · intro j; rw [ringRun_eq]; simp
  · rcases hr with h | h <;> simp [h, isTerminalStatus]

/-- Witness for `c6_caller_only_ring_timeout` at tick counts 60 and 59
and a fresh outgoing call. -/
theorem c6_witness :
    (ringRun true 60).2 = true ∧
    (ringRun true 59).2 = false ∧
    (∀ j : Nat, (ringRun false j).2 = false) ∧
    (autoCancelCall 0 callingRecord).record.status = .cancelled ∧
    (autoCancelCall 0 callingRecord).record.ended_at = some 0 ∧
    (autoCancelCall 0 callingRecord).soundStopped = true ∧
    (autoCancelCall 0 callingRecord).ringTimerCleared = true ∧
    (autoCancelCall 0 callingRecord).reloaded = true ∧
    isTerminalStatus callingRecord.status = false :=
  c6_caller_only_ring_timeout 60 59 0 callingRecord (by decide) (by decide) (Or.inl rfl)

/-- C5 counterexample: the claim that a failed publish of the restart
offer surfaces a terminal connection-lost error is false: when the
database update returns an error, `attemptReconnect` only logs it — the
error callback receives nothing and the consumed flags stay set. -/
theorem c5_counterexample_publish_error_silent :
    publishFailEnv.publishErrors = true ∧
    (attemptReconnect publishFailEnv offerV2 midCallCallerEngine midCallRecord).errorsEmitted
      = [] ∧
    (attemptReconnect publishFailEnv offerV2 midCallCallerEngine
        midCallRecord).engine.hasProcessedAnswer = true := by
  decide

/-- C5 (amended): one reconnection attempt makes at most one publish
and never retries; when creating the restart offer throws, the terminal
connection-lost message is surfaced through the error callback and
nothing is published; when the publish returns a database error, the
failure is only logged — no error is surfaced and no flag is reset; on
success the ICE-restart offer replaces the old one, the candidate list
is cleared, and the consumed answer flag and candidate dedup set are
reset. -/
theorem c5_amended_reconnect (env : ReconnectEnv) (off : SessionDesc)
    (s : EngineState) (r : CallRecord)
    (hpc : s.peerConnection.isNone = false) (hid : s.callId.isNone = false) :
    (attemptReconnect env off s r).publishAttempts ≤ 1 ∧
    (env.createOfferThrows = true →
      (attemptReconnect env off s r).errorsEmitted
          = ["Connection lost. Please try again."] ∧
      (attemptReconnect env off s r).record = r ∧
      (attemptReconnect env off s r).engine = s ∧
      (attemptReconnect env off s r).publishAttempts = 0) ∧
    (env.createOfferThrows = false → env.publishErrors = true →
      (attemptReconnect env off s r).errorsEmitted = [] ∧
      (attemptReconnect env off s r).record = r ∧
      (attemptReconnect env off s r).engine = s) ∧
    (env.createOfferThrows = false → env.publishErrors = false →
      (attemptReconnect env off s r).offerCreatedWithIceRestart = true ∧
      (attemptReconnect env off s r).record.offer = some off ∧
      (attemptReconnect env off s r).record.ice_candidates = [] ∧
      (attemptReconnect env off s r).engine.hasProcessedAnswer = false ∧
      (attemptReconnect env off s r).engine.processedCandidates = [] ∧
      (attemptReconnect env off s r).errorsEmitted = [] ∧
      (attemptReconnect env off s r).publishAttempts = 1) := by
  rcases env with ⟨co, pe⟩
  cases co <;> cases pe <;> simp [attemptReconnect, hpc, hid]

/-- Witness for `c5_amended_reconnect` at the fully successful
environment on a concrete mid-call state. -/
theorem c5_witness :
    (attemptReconnect reconnectOkEnv offerV2 midCallCallerEngine
        midCallRecord).publishAttempts ≤ 1 ∧
    (reconnectOkEnv.createOfferThrows = true →
      (attemptReconnect reconnectOkEnv offerV2 midCallCallerEngine
          midCallRecord).errorsEmitted = ["Connection lost. Please try again."] ∧
      (attemptReconnect reconnectOkEnv offerV2 midCallCallerEngine
          midCallRecord).record = midCallRecord ∧
      (attemptReconnect reconnectOkEnv offerV2 midCallCallerEngine
          midCallRecord).engine = midCallCallerEngine ∧
      (attemptReconnect reconnectOkEnv offerV2 midCallCallerEngine
          midCallRecord).publishAttempts = 0) ∧
    (reconnectOkEnv.createOfferThrows = false → reconnectOkEnv.publishErrors = true →
      (attemptReconnect reconnectOkEnv offerV2 midCallCallerEngine
          midCallRecord).errorsEmitted = [] ∧
      (attemptReconnect reconnectOkEnv offerV2 midCallCallerEngine
          midCallRecord).record = midCallRecord ∧
      (attemptReconnect reconnectOkEnv offerV2 midCallCallerEngine
          midCallRecord).engine = midCallCallerEngine) ∧
    (reconnectOkEnv.createOfferThrows = false → reconnectOkEnv.publishErrors = false →
      (attemptReconnect reconnectOkEnv offerV2 midCallCallerEngine
          midCallRecord).offerCreatedWithIceRestart = true ∧
      (attemptReconnect reconnectOkEnv offerV2 midCallCallerEngine
          midCallRecord).record.offer = some offerV2 ∧
      (attemptReconnect reconnectOkEnv offerV2 midCallCallerEngine
          midCallRecord).record.ice_candidates = [] ∧
      (attemptReconnect reconnectOkEnv offerV2 midCallCallerEngine
          midCallRecord).engine.hasProcessedAnswer = false ∧
      (attemptReconnect reconnectOkEnv offerV2 midCallCallerEngine
          midCallRecord).engine.processedCandidates = [] ∧
      (attemptReconnect reconnectOkEnv offerV2 midCallCallerEngine
          midCallRecord).errorsEmitted = [] ∧
      (attemptReconnect reconnectOkEnv offerV2 midCallCallerEngine
          midCallRecord).publishAttempts = 1) :=
  c5_amended_reconnect reconnectOkEnv offerV2 midCallCallerEngine midCallRecord
    (by decide) (by decide)

/-- C2 (amended): the engine's signaling poll performs full cleanup and
stops polling exactly when the fetched status is one of `ended`,
`rejected`, `missed`, `cancelled` (not on `failed` or `busy`); and a
side that never wrote a terminal status — any of the six — detects it
on its next overlay poll tick, because the overlay query filters to
non-terminal statuses and comes back empty, and that side then runs its
own local cleanup without writing any status to the record. -/
theorem c2_amended_terminal_cleanup
    (fails : RTCIceCandidateInit → Bool) (ansSdp : SessionDesc)
    (s : EngineState) (cid : String) (view : RecordView)
    (ov : OverlayState) (eng : EngineState) (lid : String) (st : CallStatus)
    (hcid : s.callId = some cid)
    (hterm : view.status ∈ alreadyEndedStatuses)
    (hst : isTerminalStatus st = true)
    (hov : ov.activeCall.isSome = true)
    (hend : ov.isEnding = false) :
    signalingPollTick fails ansSdp (some view) s = (cleanup s, none) ∧
    (cleanup s).pollingActive = false ∧
    checkActiveCall (some (lid, st)) ov eng
      = (overlayAfterTeardown ov, cleanup eng, false) ∧
    (overlayAfterTeardown ov).reloaded = true ∧
    (overlayAfterTeardown ov).soundStarted = false := by
  have hnotvis : st ∉ overlayVisibleStatuses := by
    cases st <;> simp_all [isTerminalStatus, overlayVisibleStatuses]
  refine ⟨?_, rfl, ?_, rfl, rfl⟩
  · simp [signalingPollTick, hcid, hterm]
  · simp [checkActiveCall, hend, hnotvis, hov]

/-- Witness for `c2_amended_terminal_cleanup`: a caller engine fetching
an `ended` record, and an overlay on the other side whose record
reached `busy`. -/
theorem c2_witness :
    signalingPollTick neverFails answerV1 (some endedStatusView) callerPollingState
      = (cleanup callerPollingState, none) ∧
    (cleanup callerPollingState).pollingActive = false ∧
    checkActiveCall (some (("call-1"), CallStatus.busy)) overlayWithActive {}
      = (overlayAfterTeardown overlayWithActive, cleanup {}, false) ∧
    (overlayAfterTeardown overlayWithActive).reloaded = true ∧
    (overlayAfterTeardown overlayWithActive).soundStarted = false :=
  c2_amended_terminal_cleanup neverFails answerV1 callerPollingState ("call-1")
    endedStatusView overlayWithActive {} ("call-1") CallStatus.busy
    rfl (by decide) (by decide) (by decide) rfl

/-- C9: `initializeCall` classifies each media-acquisition failure
cause distinctly and never throws past the callback boundary: an
insecure context yields the HTTPS guidance, a permission denial yields
the platform permission message plus the permission-denied callback
with the affected device (`both` for video, `microphone` for voice), a
missing device and a busy device yield their own messages, the four
messages are pairwise distinct, every branch returns `false`, and every
failing run reports exactly one error through the error callback. -/
theorem c9_media_error_classification
    (env : InitEnv) (cid : String) (ct : CallType) (isCaller : Bool) (s : EngineState) :
    (env.mediaDevicesAvailable = false → env.protocolHttps = false →
      env.hostnameLoopback = false →
      (initializeCall env cid ct isCaller s).success = false ∧
      (initializeCall env cid ct isCaller s).errorsEmitted
          = [httpsErrorMessage env.protocolString env.hostString] ∧
      (initializeCall env cid ct isCaller s).permissionDenied = none) ∧
    (env.mediaDevicesAvailable = true →
      requestMediaWithIOSSupport env (ct == CallType.video)
          = .error MediaErrorName.NotAllowedError →
      env.iosDevice = false →
      (initializeCall env cid ct isCaller s).success = false ∧
      (initializeCall env cid ct isCaller s).errorsEmitted = [desktopPermissionMessage] ∧
      (initializeCall env cid ct isCaller s).permissionDenied
          = some (if ct == CallType.video then ("both") else ("microphone"))) ∧
    (env.mediaDevicesAvailable = true →
      requestMediaWithIOSSupport env (ct == CallType.video)
          = .error MediaErrorName.NotFoundError →
      (initializeCall env cid ct isCaller s).success = false ∧
      (initializeCall env cid ct isCaller s).errorsEmitted = [notFoundMessage] ∧
      (initializeCall env cid ct isCaller s).permissionDenied = none) ∧
    (env.mediaDevicesAvailable = true →
      requestMediaWithIOSSupport env (ct == CallType.video)
          = .error MediaErrorName.NotReadableError →
      (initializeCall env cid ct isCaller s).success = false ∧
      (initializeCall env cid ct isCaller s).errorsEmitted = [busyMessage] ∧
      (initializeCall env cid ct isCaller s).permissionDenied = none) ∧
    ([httpsErrorMessage ("http:") ("example.com"), desktopPermissionMessage,
      notFoundMessage, busyMessage].Nodup) ∧
    ((initializeCall env cid ct isCaller s).success = false →
      (initializeCall env cid ct isCaller s).errorsEmitted.length = 1) := by
  refine ⟨?_, ?_, ?_, ?_, ?_, ?_⟩
  · intro h1 h2 h3
    simp [initializeCall, h1, h2, h3]
  · intro h1 hreq hios
    simp [initializeCall, h1, hreq, permissionDeniedResult, hios]
  · intro h1 hreq
    simp [initializeCall, h1, hreq]
  · intro h1 hreq
    simp [initializeCall, h1, hreq]
  · decide
  · rcases hmd : env.mediaDevicesAvailable with _ | _
    · intro _
      simp [initializeCall, hmd]
    · rcases hreq : requestMediaWithIOSSupport env (ct == CallType.video) with e | t
      · cases e <;> simp [initializeCall, hmd, hreq, permissionDeniedResult]
      · simp [initializeCall, hmd, hreq]

/-- Witness for `c9_media_error_classification`: a non-iOS permission
denial on a video call, and an insecure plain-HTTP context. -/
theorem c9_witness :
    ((initializeCall permDeniedEnv ("call-1") CallType.video true {}).success = false ∧
     (initializeCall permDeniedEnv ("call-1") CallType.video true {}).errorsEmitted
         = [desktopPermissionMessage] ∧
     (initializeCall permDeniedEnv ("call-1") CallType.video true {}).permissionDenied
         = some (if CallType.video == CallType.video then ("both") else ("microphone"))) ∧
    ((initializeCall insecureEnv ("call-1") CallType.voice true {}).success = false ∧
     (initializeCall insecureEnv ("call-1") CallType.voice true {}).errorsEmitted
         = [httpsErrorMessage insecureEnv.protocolString insecureEnv.hostString] ∧
     (initializeCall insecureEnv ("call-1") CallType.voice true {}).permissionDenied = none) :=
  ⟨(c9_media_error_classification permDeniedEnv ("call-1") CallType.video true {}).2.1
      rfl rfl rfl,
   (c9_media_error_classification insecureEnv ("call-1") CallType.voice true {}).1
      rfl rfl rfl⟩

end MimiInsta
